import Mathlib

/-!
Shallow embedding of `ipa-extractor.py` (rezkyft/extractipa).

`WorkerThread.run` is modelled as a function from an abstract process
outcome (the lines the external process produced and its exit code, or
the exception raised while launching or reading) to the list of Qt
signals the worker emits, in emission order.  The GUI session state
(`ssh_connected`, `ipa_available`, `last_generated_ipa_filename`,
`all_bundle_paths`, the progress bar and the connection indicator) is
modelled as a record, and each handler of `IPAExtractorApp` as a state
transformer.  Purely visual side effects (button enablement, widget
geometry, log colors) are modelled only where a claim depends on them.
-/

/-- Whitespace test used by Python `str.strip`
(the ASCII whitespace characters). -/
def isPySpace (c : Char) : Bool :=
  c = ' ' || c = '\t' || c = '\n' || c = '\r' || c = '\x0b' || c = '\x0c'

/-- Python `str.strip` on a character list: drop leading whitespace,
then drop trailing whitespace. -/
def pyStripL (l : List Char) : List Char :=
  ((l.dropWhile isPySpace).reverse.dropWhile isPySpace).reverse

/-- Python `str.strip`. -/
def pyStrip (s : String) : String := (pyStripL s.toList).asString

/-- Python substring test `needle in hay` on character lists. -/
def listContains (needle : List Char) : List Char → Bool
  | [] => needle.isEmpty
  | c :: rest => needle.isPrefixOf (c :: rest) || listContains needle rest

/-- Python substring test `needle in hay`. -/
def containsSub (needle hay : String) : Bool :=
  listContains needle.toList hay.toList

/-- Numeric value of a digit string, as computed by Python `int`. -/
def digitsVal (l : List Char) : Nat :=
  l.foldl (fun n c => n * 10 + (c.toNat - 48)) 0

/-- The regex search for a decimal percentage token (digits immediately
followed by a percent sign) performed on every stdout line when the
worker runs a download: value of the first maximal digit run that is
immediately followed by a percent sign, the group converted by `int`.
The accumulator holds the current digit run, reversed. -/
def percentScan : List Char → List Char → Option Nat
  | _, [] => none
  | acc, c :: rest =>
    if c = '%' then
      if acc.isEmpty then percentScan [] rest else some (digitsVal acc.reverse)
    else if c.isDigit then percentScan (c :: acc) rest
    else percentScan [] rest

/-- Progress value parsed from one stdout line, if any. -/
def percentOfLine (s : String) : Option Nat := percentScan [] s.toList

/-- Spec-side notion of a well-formed percentage token: the line has a
decimal digit immediately followed by a percent sign. -/
def hasPercentToken : List Char → Bool
  | c :: d :: rest => (c.isDigit && (d == '%')) || hasPercentToken (d :: rest)
  | _ => false

/-- Whether a character list starts with a percent sign. -/
def headPercent : List Char → Bool
  | c :: _ => c == '%'
  | [] => false

/-- Events (Qt signals) emitted by `WorkerThread`. -/
inductive WEvent where
  | log_message (text color : String)
  | progress_update (percent : Nat)
  | finished (stdout stderr : String) (returncode : Int) (time_taken : ℚ)
  | error (msg : String)

/-- Abstract outcome of one external process invocation: either the
process ran to completion producing the given stdout and stderr lines
and exit code, or `subprocess.Popen` raised `FileNotFoundError`, or
some other exception was raised after `preOut` stdout lines had already
been read. -/
inductive ProcOutcome where
  | ok (stdoutLines stderrLines : List String) (returncode : Int)
  | fileNotFound
  | exc (preOut : List String) (msg : String)

/-- The progress events the read loop emits for the given stdout lines:
one per line whose percentage search matches, carrying the parsed
value; nothing when the worker is not a download. -/
def progressEventsFor (is_download : Bool) (lines : List String) : List WEvent :=
  if is_download then
    lines.filterMap (fun l => (percentOfLine l).map WEvent.progress_update)
  else []

/-- `WorkerThread.run`: the log of the command, then (on a completed
run) the progress events followed by exactly one `finished` signal with
the joined outputs, exit code and elapsed time; on a launch or read
fault, exactly one `error` signal. -/
def WorkerThread.run (command : String) (is_download : Bool)
    (o : ProcOutcome) (time_taken : ℚ) : List WEvent :=
  WEvent.log_message ("Executing command: " ++ command) "purple" ::
  match o with
  | .ok outL errL rc =>
      progressEventsFor is_download outL ++
        [WEvent.finished (String.join outL) (String.join errL) rc time_taken]
  | .fileNotFound =>
      [WEvent.error
        "Error: SSH, SCP, or rsync command not found. Make sure it\x27s installed and in your PATH."]
  | .exc preOut msg =>
      progressEventsFor is_download preOut ++
        [WEvent.error ("An error occurred while running the command: " ++ msg)]

/-- Is an event the Terminal (finished) signal? -/
def isTerminalEv : WEvent → Bool
  | .finished _ _ _ _ => true
  | _ => false

/-- Is an event the LaunchError (error) signal? -/
def isLaunchErrorEv : WEvent → Bool
  | .error _ => true
  | _ => false

/-- The sequence of progress percentages carried by an event list. -/
def progressValues (evs : List WEvent) : List Nat :=
  evs.filterMap fun e =>
    match e with
    | .progress_update p => some p
    | _ => none

lemma mem_progressEventsFor {e : WEvent} {b : Bool} {ls : List String}
    (h : e ∈ progressEventsFor b ls) : ∃ p, e = WEvent.progress_update p := by
  unfold progressEventsFor at h
  split at h
  · rcases List.mem_filterMap.mp h with ⟨l, -, hl⟩
    rcases Option.map_eq_some'.mp hl with ⟨p, -, hp⟩
    exact ⟨p, hp.symm⟩
  · cases h

lemma countP_terminal_progressEventsFor (b : Bool) (ls : List String) :
    (progressEventsFor b ls).countP isTerminalEv = 0 := by
  refine List.countP_eq_zero.mpr (fun e he => ?_)
  rcases mem_progressEventsFor he with ⟨p, rfl⟩
  simp [isTerminalEv]

lemma countP_error_progressEventsFor (b : Bool) (ls : List String) :
    (progressEventsFor b ls).countP isLaunchErrorEv = 0 := by
  refine List.countP_eq_zero.mpr (fun e he => ?_)
  rcases mem_progressEventsFor he with ⟨p, rfl⟩
  simp [isLaunchErrorEv]

/-- C1: for every process execution started by the worker, exactly one
of the Terminal (`finished`) signal and the LaunchError (`error`)
signal is emitted — never both, never zero; in particular a missing
executable yields exactly one error and no finished signal; and the
finished signal carries the accumulated stdout, accumulated stderr,
exit code and elapsed time. -/
theorem worker_run_exactly_one_terminal_event :
    ∀ (cmd : String) (dl : Bool) (o : ProcOutcome) (t : ℚ),
      (((WorkerThread.run cmd dl o t).countP isTerminalEv = 1 ∧
        (WorkerThread.run cmd dl o t).countP isLaunchErrorEv = 0) ∨
       ((WorkerThread.run cmd dl o t).countP isTerminalEv = 0 ∧
        (WorkerThread.run cmd dl o t).countP isLaunchErrorEv = 1)) ∧
      ((WorkerThread.run cmd dl ProcOutcome.fileNotFound t).countP isLaunchErrorEv = 1 ∧
       (WorkerThread.run cmd dl ProcOutcome.fileNotFound t).countP isTerminalEv = 0) ∧
      (∀ (outL errL : List String) (rc : Int),
        WEvent.finished (String.join outL) (String.join errL) rc t ∈
          WorkerThread.run cmd dl (ProcOutcome.ok outL errL rc) t) := by
  intro cmd dl o t
  refine ⟨?_, ⟨?_, ?_⟩, ?_⟩
  · cases o with
    | ok outL errL rc =>
      left
      unfold WorkerThread.run
      simp [List.countP_cons, List.countP_append,
        countP_terminal_progressEventsFor, countP_error_progressEventsFor,
        isTerminalEv, isLaunchErrorEv]
    | fileNotFound =>
      right
      unfold WorkerThread.run
      simp [List.countP_cons, isTerminalEv, isLaunchErrorEv]
    | exc preOut msg =>
      right
      unfold WorkerThread.run
      simp [List.countP_cons, List.countP_append,
        countP_terminal_progressEventsFor, countP_error_progressEventsFor,
        isTerminalEv, isLaunchErrorEv]
  · unfold WorkerThread.run
    simp [List.countP_cons, isTerminalEv, isLaunchErrorEv]
  · unfold WorkerThread.run
    simp [List.countP_cons, isTerminalEv, isLaunchErrorEv]
  · intro outL errL rc
    unfold WorkerThread.run
    simp

lemma percentScan_isSome :
    ∀ (l acc : List Char),
      (percentScan acc l).isSome =
        (hasPercentToken l || (!acc.isEmpty && headPercent l)) := by
  intro l
  induction l with
  | nil => intro acc; simp [percentScan, hasPercentToken, headPercent]
  | cons c rest ih =>
    intro acc
    by_cases hc : c = '%'
    · subst hc
      by_cases ha : acc.isEmpty
      · rw [show percentScan acc ('%' :: rest) = percentScan [] rest by
          simp [percentScan, ha]]
        rw [ih []]
        have h5 : ('%'.isDigit) = false := by decide
        cases rest with
        | nil => simp [hasPercentToken, headPercent, ha]
        | cons d r => simp [hasPercentToken, headPercent, ha, h5]
      · rw [show percentScan acc ('%' :: rest) =
            some (digitsVal acc.reverse) by simp [percentScan, ha]]
        simp [headPercent, ha]
    · by_cases hd : c.isDigit
      · rw [show percentScan acc (c :: rest) = percentScan (c :: acc) rest by
          simp [percentScan, hc, hd]]
        rw [ih (c :: acc)]
        cases rest with
        | nil => simp [hasPercentToken, headPercent, hc]
        | cons d r =>
          simp only [hasPercentToken, headPercent, List.isEmpty_cons,
            Bool.not_false, Bool.true_and]
          have : (c == '%') = false := by simp [hc]
          simp [this, hd, Bool.or_comm]
      · rw [show percentScan acc (c :: rest) = percentScan [] rest by
          simp [percentScan, hc, hd]]
        rw [ih []]
        cases rest with
        | nil => simp [hasPercentToken, headPercent, hc]
        | cons d r => simp [hasPercentToken, headPercent, hc, hd]

lemma progressValues_progressEventsFor (ls : List String) :
    progressValues (progressEventsFor true ls) = ls.filterMap percentOfLine := by
  induction ls with
  | nil => rfl
  | cons l ls ih =>
    unfold progressEventsFor at *
    simp only [if_pos] at *
    cases h : percentOfLine l with
    | none => simpa [List.filterMap_cons, h] using ih
    | some p =>
      simp only [List.filterMap_cons, h, Option.map_some']
      simpa [progressValues, List.filterMap_cons] using ih

/-- C6: with progress tracking enabled, every stdout chunk whose
percentage search matches yields one progress event carrying the parsed
value (the emitted sequence is exactly the per-chunk parses in order),
a chunk matches precisely when it holds a well-formed token (digits
immediately followed by a percent sign), and the malformed tokens of
the spec produce no progress value. -/
theorem download_progress_token_parsing :
    (∀ (cmd : String) (outL errL : List String) (rc : Int) (t : ℚ),
       progressValues (WorkerThread.run cmd true (ProcOutcome.ok outL errL rc) t) =
         outL.filterMap percentOfLine) ∧
    (∀ s : String, (percentOfLine s).isSome = hasPercentToken s.toList) ∧
    percentOfLine "%50" = none ∧ percentOfLine "12percent" = none ∧
    percentOfLine "25% 1.23MB/s" = some 25 := by
  refine ⟨?_, ?_, by decide, by decide, by decide⟩
  · intro cmd outL errL rc t
    unfold WorkerThread.run
    simp only [progressValues, List.filterMap_cons, List.filterMap_append]
    rw [← progressValues_progressEventsFor outL]
    simp [progressValues]
  · intro s
    rw [percentOfLine, percentScan_isSome]
    simp [headPercent]

/-- The mutable session state of `IPAExtractorApp` (widget texts are
passed to the handlers as parameters; `sshpass_available` and
`rsync_available` are the two startup capability probes, never written
after `init`). -/
structure AppState where
  ssh_connected : Bool
  ipa_available : Bool
  last_generated_ipa_filename : Option String
  all_bundle_paths : List String
  bundle_combo_items : List String
  sshpass_available : Bool
  rsync_available : Bool
  indicator : String
  download_progress_visible : Bool
  download_progress_value : Nat
deriving Repr, DecidableEq

/-- The state `IPAExtractorApp.init` establishes, given the results of
the two capability probes. -/
def initialState (sshpass rsync : Bool) : AppState :=
  { ssh_connected := false, ipa_available := false,
    last_generated_ipa_filename := none,
    all_bundle_paths := [], bundle_combo_items := [],
    sshpass_available := sshpass, rsync_available := rsync,
    indicator := "disconnected",
    download_progress_visible := false, download_progress_value := 0 }

/-- `disconnect_ssh`. -/
def disconnect_ssh (st : AppState) : AppState :=
  { st with
    ssh_connected := false, ipa_available := false,
    last_generated_ipa_filename := none, indicator := "disconnected",
    download_progress_visible := false, download_progress_value := 0 }

/-- The state resets `test_ssh_connection` performs after its input
validation, before starting the test worker. -/
def test_connection_request_reset (st : AppState) : AppState :=
  { st with
    ipa_available := false, last_generated_ipa_filename := none,
    indicator := "disconnected",
    download_progress_visible := false, download_progress_value := 0 }

/-- `on_test_connection_finished`. -/
def on_test_connection_finished (st : AppState) (stdout stderr : String)
    (returncode : Int) (time_taken : ℚ) : AppState :=
  if returncode = 0 ∧ containsSub "Connected" stdout = true then
    { st with
      ssh_connected := true, ipa_available := false,
      last_generated_ipa_filename := none,
      indicator := if time_taken < 1 then "connected_fast" else "connected_slow" }
  else
    { st with
      ssh_connected := false, ipa_available := false,
      last_generated_ipa_filename := none, indicator := "disconnected" }

/-- `on_worker_error` (the slot connected to the error signal): besides
message-box and button updates it only turns the indicator red and
resets the progress bar; the session flags are untouched. -/
def on_worker_error (st : AppState) : AppState :=
  { st with
    indicator := "disconnected",
    download_progress_visible := false, download_progress_value := 0 }

/-- One log line: text and color. -/
abbrev LogLine := String × String

/-- The regex search for the artifact marker `IPA: ` followed by a
greedy dot-plus group ending in `.ipa`.  Greedy group against the
portion of the input after the marker and before the next newline:
longest prefix of at least five characters ending in `.ipa`. -/
def endsWithDotIpa (l : List Char) : Bool :=
  l.reverse.take 4 == ['a', 'p', 'i', '.']

/-- Greatest `k ≤ n` satisfying `p` (the greedy search tries the
longest extent first). -/
def findLastK (p : Nat → Bool) : Nat → Option Nat
  | 0 => if p 0 then some 0 else none
  | k + 1 => if p (k + 1) then some (k + 1) else findLastK p k

/-- Group matched in a single line segment, if any. -/
def ipaGroupOfSeg (seg : List Char) : Option (List Char) :=
  match findLastK (fun k => decide (5 ≤ k) && endsWithDotIpa (seg.take k)) seg.length with
  | some k => some (seg.take k)
  | none => none

/-- Leftmost match: try each occurrence of the marker in order and take
the first whose group part succeeds (the marker cannot overlap itself,
so resuming after the marker is the regex resume point). -/
def searchIpa : List Char → Option (List Char)
  | [] => none
  | c :: rest =>
    if (c :: rest).take 5 = "IPA: ".toList then
      match ipaGroupOfSeg (((c :: rest).drop 5).takeWhile (· ≠ '\n')) with
      | some g => some g
      | none => searchIpa rest
    else searchIpa rest

/-- The artifact filename `on_execute_finished` extracts from stdout:
the regex group, stripped. -/
def extractIpaName (s : String) : Option String :=
  (searchIpa s.toList).map (fun g => (pyStripL g).asString)

lemma findLastK_sat {p : Nat → Bool} :
    ∀ {n k : Nat}, findLastK p n = some k → p k = true := by
  intro n
  induction n with
  | zero =>
    intro k h
    unfold findLastK at h
    split at h
    · cases h; assumption
    · cases h
  | succ m ih =>
    intro k h
    unfold findLastK at h
    split at h
    · cases h; assumption
    · exact ih h

lemma ipaGroupOfSeg_endsWith {seg g : List Char}
    (h : ipaGroupOfSeg seg = some g) : endsWithDotIpa g = true := by
  unfold ipaGroupOfSeg at h
  split at h
  · next k hk =>
    cases h
    have h2 := findLastK_sat hk
    simp only [Bool.and_eq_true] at h2
    exact h2.2
  · cases h

lemma searchIpa_endsWith :
    ∀ {l g : List Char}, searchIpa l = some g → endsWithDotIpa g = true := by
  intro l
  induction l with
  | nil => intro g h; cases h
  | cons c rest ih =>
    intro g h
    unfold searchIpa at h
    split at h
    · split at h
      · next hg => cases h; exact ipaGroupOfSeg_endsWith hg
      · exact ih h
    · exact ih h

lemma dropWhile_append_last {p : Char → Bool} {c : Char} (hc : p c = false) :
    ∀ ys : List Char, ∃ zs, List.dropWhile p (ys ++ [c]) = zs ++ [c] := by
  intro ys
  induction ys with
  | nil => exact ⟨[], by simp [List.dropWhile, hc]⟩
  | cons y ys ih =>
    by_cases hy : p y
    · rcases ih with ⟨zs, hzs⟩
      exact ⟨zs, by simp [List.dropWhile, hy, hzs]⟩
    · exact ⟨y :: ys, by simp [List.dropWhile, hy]⟩

lemma pyStripL_ne_nil_of_endsWith {g : List Char}
    (h : endsWithDotIpa g = true) : pyStripL g ≠ [] := by
  unfold endsWithDotIpa at h
  have hrev : ∃ r, g.reverse = 'a' :: r := by
    cases hg : g.reverse with
    | nil => rw [hg] at h; simp at h
    | cons x r =>
      rw [hg] at h
      simp only [List.take, List.cons.injEq] at h
      have hx : x = 'a' := by
        have := (beq_iff_eq.mp h)
        exact (List.cons.injEq _ _ _ _).mp this |>.1
      exact ⟨r, by rw [hx]⟩
  rcases hrev with ⟨r, hr⟩
  have hg' : g = r.reverse ++ ['a'] := by
    have := congrArg List.reverse hr
    simpa using this
  have ha : isPySpace 'a' = false := by decide
  unfold pyStripL
  rw [hg']
  rcases dropWhile_append_last ha r.reverse with ⟨zs, hzs⟩
  rw [hzs]
  simp only [List.reverse_append, List.reverse_cons, List.reverse_nil,
    List.nil_append, List.singleton_append, List.dropWhile_cons, ha]
  simp

lemma extractIpaName_ne_empty {s : String} {n : String}
    (h : extractIpaName s = some n) : n ≠ "" := by
  unfold extractIpaName at h
  rcases Option.map_eq_some'.mp h with ⟨g, hg, hn⟩
  have hend := searchIpa_endsWith hg
  have hne := pyStripL_ne_nil_of_endsWith hend
  intro hcon
  apply hne
  have : (pyStripL g).asString.toList = ("" : String).toList := by
    rw [hn, hcon]
  simpa using this

/-- Session-state effect of `on_execute_finished`.  On exit code 0
the code first sets `ipa_available` to true and then resets it to
false when no marker parses; the per-branch net effect is modelled. -/
def on_execute_finished_state (st : AppState) (stdout : String)
    (returncode : Int) : AppState :=
  if returncode = 0 then
    match extractIpaName stdout with
    | some name =>
        { st with
            ipa_available := true, last_generated_ipa_filename := some name }
    | none =>
        { st with
            ipa_available := false, last_generated_ipa_filename := none }
  else
    { st with
        ipa_available := false, last_generated_ipa_filename := none }

/-- Log lines `on_execute_finished` appends, including the failure
classification; `password` is the password field that classification
reads. -/
def on_execute_finished_logs (st : AppState) (stdout stderr : String)
    (returncode : Int) (password : String) : List LogLine :=
  let logs0 :=
    [("--- Script Execution Output ---", "#f7f5de")] ++
    (if stdout ≠ "" then [(stdout, "black")] else []) ++
    (if stderr ≠ "" then [(stderr, "red")] else [])
  if returncode = 0 then
    let logs1 := logs0 ++
      [("Script executed successfully on iPhone!", "#c0ffee"),
       ("The .ipa file should have been created in the same directory as the script on iPhone.",
        "#c0ffee")]
    match extractIpaName stdout with
    | some name => logs1 ++ [("Detected IPA filename: " ++ name, "#c0ffee")]
    | none =>
        logs1 ++
          [("Warning: Could not automatically detect IPA filename from script output.",
            "orange")]
  else
    logs0 ++
      [("Script execution failed with code " ++ toString returncode ++ ".", "red"),
       ("Please check IP, username, password, and script/bundle path on iPhone.", "red")] ++
      (if containsSub "Permission denied" stderr = true then
        [("Access denied. Check username/password or script file permissions on iPhone.", "red")]
       else if containsSub "command not found" stderr = true then
        [("SSH or scp command not found on your laptop, or script not found on iPhone.", "red")]
       else if containsSub "Error: application bundle directory DOES NOT exists." stdout = true
              ∨ containsSub "Error: application .app directory DOES NOT exists." stdout = true then
        [("Application bundle path on iPhone is incorrect or does not exist.", "red")]
       else if st.sshpass_available = false ∧ password ≠ "" then
        [("Warning: sshpass not installed, password might be requested in external CLI.",
          "orange")]
       else [])

/-- `on_execute_finished`: the session-state effect paired with the
log lines it appends. -/
def on_execute_finished (st : AppState) (stdout stderr : String)
    (returncode : Int) (password : String) : AppState × List LogLine :=
  (on_execute_finished_state st stdout returncode,
   on_execute_finished_logs st stdout stderr returncode password)

/-- The line-boundary characters of Python `str.splitlines`. -/
def isLineBoundary (c : Char) : Bool :=
  c = '\n' || c = '\r' || c = '\x0b' || c = '\x0c' ||
  c = '\x1c' || c = '\x1d' || c = '\x1e' || c = '\x85' ||
  c = '\u2028' || c = '\u2029'

/-- Python `str.splitlines` on a character list, with a carriage
return followed by a newline treated as one boundary; the accumulator
holds the current line, reversed. -/
def pySplitlinesAux : List Char → List Char → List String
  | acc, [] => if acc.isEmpty then [] else [acc.reverse.asString]
  | acc, '\r' :: '\n' :: rest => acc.reverse.asString :: pySplitlinesAux [] rest
  | acc, c :: rest =>
    if isLineBoundary c then acc.reverse.asString :: pySplitlinesAux [] rest
    else pySplitlinesAux (c :: acc) rest

/-- Python `str.splitlines`. -/
def pySplitlines (s : String) : List String := pySplitlinesAux [] s.toList

/-- The fixed applications root used by the bundle listing. -/
def bundleBasePath : String := "/var/containers/Bundle/Application/"

/-- `on_bundle_paths_fetched`: on exit code 0 the master list and the
dropdown are cleared and rebuilt line by line from stdout; on a
nonzero exit code both keep their previous contents. -/
def on_bundle_paths_fetched (st : AppState) (stdout stderr : String)
    (returncode : Int) : AppState :=
  if returncode = 0 then
    let paths :=
      (pySplitlines stdout).foldl
        (fun acc line =>
          if pyStrip line ≠ "" then acc ++ [bundleBasePath ++ pyStrip line ++ "/"]
          else acc) []
    { st with all_bundle_paths := paths, bundle_combo_items := paths }
  else st

/-- Python `str.lower` (ASCII case mapping, which covers the paths
this tool handles). -/
def pyLower (s : String) : String := (s.toList.map Char.toLower).asString

/-- `_filter_bundle_paths`: recompute the dropdown contents from the
master list; the master list is read, never written. -/
def _filter_bundle_paths (st : AppState) (text : String) : AppState :=
  if text ≠ "" then
    { st with
        bundle_combo_items :=
          st.all_bundle_paths.filter
            (fun path => containsSub (pyLower text) (pyLower path)) }
  else
    { st with bundle_combo_items := st.all_bundle_paths }

/-- `on_ipa_download_finished`: on success the bar is set to 100, and
in all cases it is then hidden and reset; no session field changes. -/
def on_ipa_download_finished (st : AppState) (stdout stderr : String)
    (returncode : Int) (time_taken : ℚ) : AppState :=
  let st1 :=
    if returncode = 0 then { st with download_progress_value := 100 } else st
  { st1 with download_progress_visible := false, download_progress_value := 0 }

/-- A concrete connected session holding a stale artifact, used to
instantiate theorems at explicit inputs. -/
def sampleConnectedState : AppState :=
  { ssh_connected := true, ipa_available := true,
    last_generated_ipa_filename := some "Old.ipa",
    all_bundle_paths := [], bundle_combo_items := [],
    sshpass_available := true, rsync_available := true,
    indicator := "connected_fast",
    download_progress_visible := false, download_progress_value := 0 }

/-- C7: a TestConnection Terminal with exit code 0 and the success
token in stdout makes the session Connected, classified fast below the
fixed 1.0-second threshold and slow otherwise; the elapsed time has no
effect beyond the indicator; and a nonzero exit code or a missing
token leaves the session Disconnected with cleared artifact state. -/
theorem test_connection_transition :
    ∀ (st : AppState) (stdout stderr : String) (rc : Int) (t : ℚ),
      (rc = 0 ∧ containsSub "Connected" stdout = true →
        on_test_connection_finished st stdout stderr rc t =
          { st with
            ssh_connected := true, ipa_available := false,
            last_generated_ipa_filename := none,
            indicator := if t < 1 then "connected_fast" else "connected_slow" }) ∧
      (¬(rc = 0 ∧ containsSub "Connected" stdout = true) →
        on_test_connection_finished st stdout stderr rc t =
          { st with
            ssh_connected := false, ipa_available := false,
            last_generated_ipa_filename := none,
            indicator := "disconnected" }) ∧
      (∀ t' : ℚ,
        { on_test_connection_finished st stdout stderr rc t with
            indicator := (on_test_connection_finished st stdout stderr rc t').indicator } =
          on_test_connection_finished st stdout stderr rc t') := by
  intro st stdout stderr rc t
  refine ⟨fun h => ?_, fun h => ?_, fun t' => ?_⟩
  · rw [on_test_connection_finished, if_pos h]
  · rw [on_test_connection_finished, if_neg h]
  · unfold on_test_connection_finished
    by_cases h : rc = 0 ∧ containsSub "Connected" stdout = true
    · rw [if_pos h, if_pos h]
    · rw [if_neg h, if_neg h]

/-- C7 witness: exit code 0, stdout holding the success token and a
newline, elapsed 0.4 seconds: the session becomes Connected and the
indicator is the fast classification. -/
theorem test_connection_transition_witness :
    on_test_connection_finished sampleConnectedState "Connected\n" "" 0 (2/5) =
      { sampleConnectedState with
        ssh_connected := true, ipa_available := false,
        last_generated_ipa_filename := none, indicator := "connected_fast" } := by
  have h := (test_connection_transition sampleConnectedState "Connected\n" "" 0 (2/5)).1
    ⟨rfl, by decide⟩
  rw [h]
  have ht : ((2 : ℚ)/5) < 1 := by norm_num
  rw [if_pos ht]

/-- C5: on an Execute Terminal with exit code 0, the artifact becomes
available exactly when the IPA marker parses from stdout, the stored
filename is exactly the parsed (leftmost-match) name, and when no
marker parses a warning-kind (orange) log line is produced rather than
a hard failure. -/
theorem execute_success_artifact_extraction :
    ∀ (st : AppState) (stdout stderr password : String),
      (on_execute_finished st stdout stderr 0 password).1.ipa_available =
          (extractIpaName stdout).isSome ∧
      (on_execute_finished st stdout stderr 0 password).1.last_generated_ipa_filename =
          extractIpaName stdout ∧
      (extractIpaName stdout = none →
        ("Warning: Could not automatically detect IPA filename from script output.",
          "orange") ∈ (on_execute_finished st stdout stderr 0 password).2) := by
  intro st stdout stderr password
  unfold on_execute_finished on_execute_finished_state on_execute_finished_logs
  cases h : extractIpaName stdout with
  | some n => simp [h]
  | none => simp [h]

/-- C5 witness: stdout containing the marker line stores the parsed
name; stdout without a marker leaves the artifact unavailable and
appends the orange warning line. -/
theorem execute_success_artifact_extraction_witness :
    (on_execute_finished sampleConnectedState "IPA: MyApp.ipa\n" "" 0 "").1.last_generated_ipa_filename
        = some "MyApp.ipa" ∧
    (on_execute_finished sampleConnectedState "done\n" "" 0 "").1.ipa_available = false ∧
    ("Warning: Could not automatically detect IPA filename from script output.", "orange")
        ∈ (on_execute_finished sampleConnectedState "done\n" "" 0 "").2 := by
  refine ⟨?_, ?_, ?_⟩
  · rw [(execute_success_artifact_extraction sampleConnectedState "IPA: MyApp.ipa\n" "" "").2.1]
    decide
  · rw [(execute_success_artifact_extraction sampleConnectedState "done\n" "" "").1]
    decide
  · exact (execute_success_artifact_extraction sampleConnectedState "done\n" "" "").2.2
      (by decide)

/-- One catalog entry from one stdout line, when the line is
non-blank: the trimmed line between the fixed applications root and a
trailing slash. -/
def bundleEntryOf (line : String) : Option String :=
  if pyStrip line ≠ "" then some (bundleBasePath ++ pyStrip line ++ "/") else none

lemma foldl_bundle_entries (l : List String) :
    ∀ acc : List String,
      l.foldl (fun acc line =>
        if pyStrip line ≠ "" then acc ++ [bundleBasePath ++ pyStrip line ++ "/"]
        else acc) acc = acc ++ l.filterMap bundleEntryOf := by
  induction l with
  | nil => intro acc; simp
  | cons x l ih =>
    intro acc
    by_cases hx : pyStrip x ≠ ""
    · simp only [List.foldl_cons, if_pos hx, ih,
        List.filterMap_cons, bundleEntryOf, if_pos hx]
      simp
    · simp only [List.foldl_cons, if_neg hx, ih,
        List.filterMap_cons, bundleEntryOf, if_neg hx]

/-- C8: a ListBundles Terminal with exit code 0 rebuilds the catalog
from stdout line by line — each non-blank line trimmed, prefixed with
the fixed applications root and suffixed with a slash — preserving the
order of the remote listing; concretely, two listing lines give the
two corresponding entries in listing order. -/
theorem bundle_listing_rebuild :
    (∀ (st : AppState) (stdout stderr : String),
      (on_bundle_paths_fetched st stdout stderr 0).all_bundle_paths =
        (pySplitlines stdout).filterMap bundleEntryOf) ∧
    (pySplitlines "com.foo.App\ncom.bar.App2\n").filterMap bundleEntryOf =
      ["/var/containers/Bundle/Application/com.foo.App/",
       "/var/containers/Bundle/Application/com.bar.App2/"] := by
  constructor
  · intro st stdout stderr
    have h0 : (0 : Int) = 0 := rfl
    rw [on_bundle_paths_fetched]
    rw [if_pos h0]
    rw [foldl_bundle_entries]
    simp
  · decide

lemma listContains_nil (l : List Char) : listContains [] l = true := by
  cases l <;> simp [listContains]

/-- C9: recomputing the filtered view yields exactly the catalog
entries containing the filter text as a case-insensitive substring, in
catalog order, and never changes the unfiltered catalog. -/
theorem bundle_filtering_pure :
    ∀ (st : AppState) (text : String),
      (_filter_bundle_paths st text).all_bundle_paths = st.all_bundle_paths ∧
      (_filter_bundle_paths st text).bundle_combo_items =
        st.all_bundle_paths.filter
          (fun path => containsSub (pyLower text) (pyLower path)) := by
  intro st text
  by_cases h : text ≠ ""
  · rw [_filter_bundle_paths, if_pos h]
    exact ⟨rfl, rfl⟩
  · push_neg at h
    subst h
    rw [_filter_bundle_paths]
    have he : (pyLower "").data = [] := by decide
    simp [containsSub, listContains_nil, he, List.filter_true]

/-- C10: whatever the exit code, the download-completion handler
leaves the connection flag, artifact availability, artifact filename
and the bundle catalog untouched; it only hides and resets the
progress bar (and refreshes button enablement). -/
theorem download_finished_preserves_session :
    ∀ (st : AppState) (stdout stderr : String) (rc : Int) (t : ℚ),
      on_ipa_download_finished st stdout stderr rc t =
        { st with
          download_progress_visible := false, download_progress_value := 0 } := by
  intro st stdout stderr rc t
  unfold on_ipa_download_finished
  by_cases h : rc = 0
  · rw [if_pos h]
  · rw [if_neg h]

/-- Observable actions a request handler performs, in program order:
the warning pop-up of an early-return guard, log lines, the command
construction by `_build_ssh_command`, the two artifact-state resets,
the progress-bar reset, and the start of a worker thread.  Widget-text
parameters of the traces below are the stripped field values the
handler reads. -/
inductive AppAction where
  | warn (title : String)
  | logLine (text : String)
  | buildCommand (kind : String)
  | set_ipa_available (b : Bool)
  | set_last_filename (o : Option String)
  | resetProgressBar
  | startWorker (callback : String)
deriving Repr, DecidableEq

/-- Is the action a command construction? -/
def isBuildA : AppAction → Bool
  | .buildCommand _ => true
  | _ => false

/-- Is the action a worker start? -/
def isStartA : AppAction → Bool
  | .startWorker _ => true
  | _ => false

/-- Is the action the reset of `ipa_available` to false? -/
def isClearAvailA : AppAction → Bool
  | .set_ipa_available b => !b
  | _ => false

/-- Is the action the reset of `last_generated_ipa_filename` to None? -/
def isClearNameA : AppAction → Bool
  | .set_last_filename o => o.isNone
  | _ => false

/-- Both artifact-state clears occur strictly before the first action
satisfying `stop`. -/
def clearedBefore (stop : AppAction → Bool) (tr : List AppAction) : Bool :=
  ((tr.takeWhile (fun a => !stop a)).any isClearAvailA) &&
  ((tr.takeWhile (fun a => !stop a)).any isClearNameA)

/-- `run_script_on_iphone` (the Execute request), as the sequence of
observable actions it performs: guards, then command construction,
log, artifact clears, progress reset, worker start — in that order. -/
def run_script_on_iphone_trace (st : AppState) (mechIndex : Nat)
    (ip username password remote_script bundle_path : String) : List AppAction :=
  if st.ssh_connected = false then [.warn "Connection Error"]
  else if mechIndex ≠ 1 then [.warn "Input Error"]
  else if ip = "" ∨ username = "" ∨ remote_script = "" ∨ bundle_path = "" then
    [.warn "Input Error"]
  else
    [.buildCommand "execute",
     .logLine "Attempting to run script on iPhone",
     .set_ipa_available false,
     .set_last_filename none,
     .resetProgressBar,
     .startWorker "on_execute_finished"]

/-- `transfer_and_run_script` (the Transfer request): guards, then
artifact clears and progress reset, then command construction, log,
worker start.  `local_script_exists` stands for the file-existence
check on the chosen local script. -/
def transfer_and_run_script_trace (st : AppState) (mechIndex : Nat)
    (local_script : String) (local_script_exists : Bool)
    (ip username password remote_script bundle_path : String) : List AppAction :=
  if st.ssh_connected = false then [.warn "Connection Error"]
  else if mechIndex ≠ 0 then [.warn "Input Error"]
  else if local_script = "" ∨ local_script_exists = false then [.warn "Input Error"]
  else if ip = "" ∨ username = "" ∨ remote_script = "" ∨ bundle_path = "" then
    [.warn "Input Error"]
  else
    [.set_ipa_available false,
     .set_last_filename none,
     .resetProgressBar,
     .buildCommand "transfer",
     .logLine "Attempting to transfer script",
     .startWorker "on_transfer_finished_and_then_run"]

/-- `fetch_bundle_paths` (the ListBundles request): guards, then
command construction, log, artifact clears, progress reset, worker
start — in that order. -/
def fetch_bundle_paths_trace (st : AppState)
    (ip username password : String) : List AppAction :=
  if st.ssh_connected = false then [.warn "Connection Error"]
  else if ip = "" ∨ username = "" then [.warn "Input Error"]
  else
    [.buildCommand "list_bundles",
     .logLine "Attempting to retrieve bundle list",
     .set_ipa_available false,
     .set_last_filename none,
     .resetProgressBar,
     .startWorker "on_bundle_paths_fetched"]

/-- `download_ipa_from_iphone` as its sequence of observable actions.
`local_save_path` is the result of the save-file dialog, the empty
string standing for a cancelled dialog; the rsync warning pop-up does
not return early. -/
def download_ipa_trace (st : AppState)
    (ip username password remote_script_path local_save_path : String) : List AppAction :=
  if st.ssh_connected = false then [.warn "Connection Error"]
  else if st.ipa_available = false ∨ st.last_generated_ipa_filename = none then
    [.warn "IPA Not Ready"]
  else
    (if st.rsync_available = false then [.warn "rsync Not Found"] else []) ++
    (if local_save_path = "" then [.logLine "IPA download cancelled by user."]
     else
      [.buildCommand "download_ipa",
       .logLine "Attempting to download IPA",
       .resetProgressBar,
       .startWorker "on_ipa_download_finished"])

/-- Is the action one of the two rejecting warning pop-ups of the
download request? -/
def isRejectWarnA : AppAction → Bool
  | .warn t => t == "Connection Error" || t == "IPA Not Ready"
  | _ => false

/-- A download request was turned away by a validation guard. -/
def downloadRejected (tr : List AppAction) : Bool := tr.any isRejectWarnA

/-- C2 counterexample: a validated Execute request on a connected
session performs the command construction first — no artifact-state
clear precedes the build action, so the claim that the session is
cleared before the command line is built fails on this input. -/
theorem execute_request_builds_before_clearing :
    clearedBefore isBuildA (run_script_on_iphone_trace sampleConnectedState 1
        "192.168.1.2" "root" "alpine" "/var/mobile/Documents/extract-ipa.sh"
        "/var/containers/Bundle/Application/UUID/App.app") = false ∧
    (run_script_on_iphone_trace sampleConnectedState 1
        "192.168.1.2" "root" "alpine" "/var/mobile/Documents/extract-ipa.sh"
        "/var/containers/Bundle/Application/UUID/App.app").any isBuildA = true := by
  decide

/-- C2 amended: every Transfer, Execute, or ListBundles request that
passes input validation clears `ipa_available` and
`last_generated_ipa_filename` before its worker thread is started —
hence before the new process can run and regardless of the outcome of
the operation; for Transfer the clears even precede the command
construction (for Execute and ListBundles they follow it). -/
theorem request_clears_artifact_before_worker_start :
    ∀ (st : AppState) (mech : Nat) (ls : String) (lsExists : Bool)
      (ip username password remote_script bundle_path : String),
      (st.ssh_connected = true → mech = 0 → ls ≠ "" → lsExists = true →
        ip ≠ "" → username ≠ "" → remote_script ≠ "" → bundle_path ≠ "" →
        clearedBefore isStartA (transfer_and_run_script_trace st mech ls lsExists
            ip username password remote_script bundle_path) = true ∧
        clearedBefore isBuildA (transfer_and_run_script_trace st mech ls lsExists
            ip username password remote_script bundle_path) = true) ∧
      (st.ssh_connected = true → mech = 1 →
        ip ≠ "" → username ≠ "" → remote_script ≠ "" → bundle_path ≠ "" →
        clearedBefore isStartA (run_script_on_iphone_trace st mech
            ip username password remote_script bundle_path) = true) ∧
      (st.ssh_connected = true → ip ≠ "" → username ≠ "" →
        clearedBefore isStartA (fetch_bundle_paths_trace st ip username password) = true) := by
  intro st mech ls lsExists ip username password remote_script bundle_path
  refine ⟨?_, ?_, ?_⟩
  · intro hc hm hls hex hip hu hrs hbp
    rw [transfer_and_run_script_trace, if_neg (by simp [hc]), if_neg (by simp [hm]),
      if_neg (by simp [hls, hex]), if_neg (by simp [hip, hu, hrs, hbp])]
    exact ⟨by decide, by decide⟩
  · intro hc hm hip hu hrs hbp
    rw [run_script_on_iphone_trace, if_neg (by simp [hc]), if_neg (by simp [hm]),
      if_neg (by simp [hip, hu, hrs, hbp])]
    decide
  · intro hc hip hu
    rw [fetch_bundle_paths_trace, if_neg (by simp [hc]), if_neg (by simp [hip, hu])]
    decide

/-- C2 amended witness: a concrete validated request of each of the
three kinds clears the artifact state before its worker start, and for
Transfer before the command construction. -/
theorem request_clears_artifact_before_worker_start_witness :
    (clearedBefore isStartA (transfer_and_run_script_trace sampleConnectedState 0
        "/home/user/extract-ipa.sh" true "192.168.1.2" "root" "alpine"
        "/var/mobile/Documents/extract-ipa.sh"
        "/var/containers/Bundle/Application/UUID/App.app") = true ∧
     clearedBefore isBuildA (transfer_and_run_script_trace sampleConnectedState 0
        "/home/user/extract-ipa.sh" true "192.168.1.2" "root" "alpine"
        "/var/mobile/Documents/extract-ipa.sh"
        "/var/containers/Bundle/Application/UUID/App.app") = true) ∧
    clearedBefore isStartA (run_script_on_iphone_trace sampleConnectedState 1
        "192.168.1.2" "root" "alpine" "/var/mobile/Documents/extract-ipa.sh"
        "/var/containers/Bundle/Application/UUID/App.app") = true ∧
    clearedBefore isStartA (fetch_bundle_paths_trace sampleConnectedState
        "192.168.1.2" "root" "alpine") = true := by
  have h := request_clears_artifact_before_worker_start sampleConnectedState 1
    "/home/user/extract-ipa.sh" true "192.168.1.2" "root" "alpine"
    "/var/mobile/Documents/extract-ipa.sh"
    "/var/containers/Bundle/Application/UUID/App.app"
  have h0 := request_clears_artifact_before_worker_start sampleConnectedState 0
    "/home/user/extract-ipa.sh" true "192.168.1.2" "root" "alpine"
    "/var/mobile/Documents/extract-ipa.sh"
    "/var/containers/Bundle/Application/UUID/App.app"
  refine ⟨h0.1 rfl rfl (by decide) rfl (by decide) (by decide) (by decide) (by decide),
    h.2.1 rfl rfl (by decide) (by decide) (by decide) (by decide),
    h.2.2 rfl (by decide) (by decide)⟩

/-- C3: a Download request is rejected by the validation guards
exactly when one of `ssh_connected`, `ipa_available`,
`last_generated_ipa_filename`-is-set fails; a rejected request starts
no worker, so no process is launched; and when all three hold the
operation is permitted — it proceeds, and starts the download worker
whenever the save dialog is not cancelled. -/
theorem download_legal_iff_connected_available_named :
    ∀ (st : AppState) (ip username password remote_script_path dlg : String),
      downloadRejected (download_ipa_trace st ip username password remote_script_path dlg) =
        !(st.ssh_connected && st.ipa_available && st.last_generated_ipa_filename.isSome) ∧
      (downloadRejected (download_ipa_trace st ip username password remote_script_path dlg) = true →
        (download_ipa_trace st ip username password remote_script_path dlg).any isStartA = false) ∧
      ((st.ssh_connected && st.ipa_available && st.last_generated_ipa_filename.isSome) = true →
        dlg ≠ "" →
        (download_ipa_trace st ip username password remote_script_path dlg).any isStartA = true) := by
  intro st ip username password remote_script_path dlg
  cases hconn : st.ssh_connected with
  | false =>
    have ht : download_ipa_trace st ip username password remote_script_path dlg =
        [AppAction.warn "Connection Error"] := by
      rw [download_ipa_trace, if_pos hconn]
    rw [ht]
    refine ⟨?_, fun _ => by decide, fun h _ => by simp at h⟩
    simp [downloadRejected, isRejectWarnA]
  | true =>
    have hconn' : ¬(st.ssh_connected = false) := by rw [hconn]; decide
    by_cases hrej : st.ipa_available = false ∨ st.last_generated_ipa_filename = none
    · have ht : download_ipa_trace st ip username password remote_script_path dlg =
          [AppAction.warn "IPA Not Ready"] := by
        rw [download_ipa_trace, if_neg hconn', if_pos hrej]
      have hb : (st.ipa_available && st.last_generated_ipa_filename.isSome) = false := by
        rcases hrej with h | h
        · rw [h]; simp
        · rw [h]; simp
      rw [ht]
      refine ⟨?_, fun _ => by decide, fun h hne => ?_⟩
      · simp [downloadRejected, isRejectWarnA, hb]
      · simp [hb] at h
    · push_neg at hrej
      obtain ⟨hav, hfn⟩ := hrej
      have hav' : st.ipa_available = true := by
        cases h : st.ipa_available
        · exact absurd h hav
        · rfl
      have hfn' : st.last_generated_ipa_filename.isSome = true := by
        cases h : st.last_generated_ipa_filename
        · exact absurd h hfn
        · rfl
      have hno : ¬(st.ipa_available = false ∨ st.last_generated_ipa_filename = none) := by
        rw [not_or]
        refine ⟨fun h => ?_, hfn⟩
        rw [h] at hav'
        cases hav'
      have ht : download_ipa_trace st ip username password remote_script_path dlg =
          (if st.rsync_available = false then [AppAction.warn "rsync Not Found"] else []) ++
          (if dlg = "" then [AppAction.logLine "IPA download cancelled by user."]
           else
            [AppAction.buildCommand "download_ipa",
             AppAction.logLine "Attempting to download IPA",
             AppAction.resetProgressBar,
             AppAction.startWorker "on_ipa_download_finished"]) := by
        rw [download_ipa_trace, if_neg hconn', if_neg hno]
      rw [ht, hav', hfn']
      by_cases hd : dlg = ""
      · rw [if_pos hd]
        cases hr : st.rsync_available
        · rw [if_pos rfl]
          exact ⟨by decide, fun _ => by decide, fun _ hne => absurd hd hne⟩
        · rw [if_neg (by decide)]
          exact ⟨by decide, fun _ => by decide, fun _ hne => absurd hd hne⟩
      · rw [if_neg hd]
        cases hr : st.rsync_available
        · rw [if_pos rfl]
          exact ⟨by decide, fun hcon => absurd hcon (by decide), fun _ _ => by decide⟩
        · rw [if_neg (by decide)]
          exact ⟨by decide, fun hcon => absurd hcon (by decide), fun _ _ => by decide⟩

/-- C3 witness: on a connected session with an available, named
artifact and an uncancelled save dialog, the request is not rejected
and the download worker starts; instantiated from the general
theorem. -/
theorem download_legal_iff_connected_available_named_witness :
    downloadRejected (download_ipa_trace sampleConnectedState "192.168.1.2" "root"
        "alpine" "/var/mobile/Documents/extract-ipa.sh" "/home/user/Old.ipa") = false ∧
    (download_ipa_trace sampleConnectedState "192.168.1.2" "root" "alpine"
        "/var/mobile/Documents/extract-ipa.sh" "/home/user/Old.ipa").any isStartA = true := by
  have h := download_legal_iff_connected_available_named sampleConnectedState
    "192.168.1.2" "root" "alpine" "/var/mobile/Documents/extract-ipa.sh" "/home/user/Old.ipa"
  exact ⟨by rw [h.1]; decide, h.2.2 (by decide) (by decide)⟩

/-- Result of one worker: the payload of the finished signal, or the
error signal raised by a launch or read fault. -/
inductive WorkerOutcome where
  | done (stdout stderr : String) (rc : Int) (t : ℚ)
  | launchError (msg : String)

/-- The state resets `transfer_and_run_script`, `run_script_on_iphone`
and `fetch_bundle_paths` all perform after their input validation and
before their worker runs. -/
def operation_request_reset (st : AppState) : AppState :=
  { st with
    ipa_available := false, last_generated_ipa_filename := none,
    download_progress_visible := false, download_progress_value := 0 }

/-- One full TestConnection cycle: the request guards (which change
nothing when validation fails), the request-time resets, then either
the completion callback or the error slot. -/
def connectCycle (st : AppState) (ip username : String)
    (w : WorkerOutcome) : AppState :=
  if ip = "" ∨ username = "" then st
  else
    match w with
    | .done out err rc t =>
        on_test_connection_finished (test_connection_request_reset st) out err rc t
    | .launchError _ => on_worker_error (test_connection_request_reset st)

/-- One full Execute-only cycle: `run_script_on_iphone`, then its
callback or the error slot. -/
def executeCycle (st : AppState) (mech : Nat)
    (ip username password remote_script bundle_path : String)
    (w : WorkerOutcome) : AppState :=
  if st.ssh_connected = false ∨ mech ≠ 1 ∨ ip = "" ∨ username = "" ∨
      remote_script = "" ∨ bundle_path = "" then st
  else
    match w with
    | .done out err rc _ =>
        (on_execute_finished (operation_request_reset st) out err rc password).1
    | .launchError _ => on_worker_error (operation_request_reset st)

/-- One full Transfer-then-Execute cycle: the request, the transfer
worker, and — only when the transfer exits 0 — the execute worker. -/
def transferCycle (st : AppState) (mech : Nat) (local_script : String)
    (local_script_exists : Bool)
    (ip username password remote_script bundle_path : String)
    (w1 w2 : WorkerOutcome) : AppState :=
  if st.ssh_connected = false ∨ mech ≠ 0 ∨ local_script = "" ∨
      local_script_exists = false ∨ ip = "" ∨ username = "" ∨
      remote_script = "" ∨ bundle_path = "" then st
  else
    match w1 with
    | .launchError _ => on_worker_error (operation_request_reset st)
    | .done _ _ rc1 _ =>
      if rc1 = 0 then
        match w2 with
        | .done out err rc _ =>
            (on_execute_finished (operation_request_reset st) out err rc password).1
        | .launchError _ => on_worker_error (operation_request_reset st)
      else operation_request_reset st

/-- One full ListBundles cycle. -/
def listCycle (st : AppState) (ip username : String)
    (w : WorkerOutcome) : AppState :=
  if st.ssh_connected = false ∨ ip = "" ∨ username = "" then st
  else
    match w with
    | .done out err rc _ =>
        on_bundle_paths_fetched (operation_request_reset st) out err rc
    | .launchError _ => on_worker_error (operation_request_reset st)

/-- One full Download cycle: guards, cancelled-dialog early return,
progress-bar display, then the callback or the error slot. -/
def downloadCycle (st : AppState) (dlg : String) (w : WorkerOutcome) : AppState :=
  if st.ssh_connected = false ∨ st.ipa_available = false ∨
      st.last_generated_ipa_filename = none then st
  else if dlg = "" then st
  else
    match w with
    | .done out err rc t =>
        on_ipa_download_finished
          { st with download_progress_visible := true, download_progress_value := 0 }
          out err rc t
    | .launchError _ =>
        on_worker_error
          { st with download_progress_visible := true, download_progress_value := 0 }

/-- One quiescent-state transition of the application: a user
operation carried to completion (button enablement keeps conflicting
operations out while a worker runs, so request and callback act
atomically on the session state). -/
inductive Step : AppState → AppState → Prop where
  | connect (st : AppState) (ip username : String) (w : WorkerOutcome) :
      Step st (connectCycle st ip username w)
  | disconnect (st : AppState) : Step st (disconnect_ssh st)
  | transferRun (st : AppState) (mech : Nat) (local_script : String)
      (local_script_exists : Bool)
      (ip username password remote_script bundle_path : String)
      (w1 w2 : WorkerOutcome) :
      Step st (transferCycle st mech local_script local_script_exists
        ip username password remote_script bundle_path w1 w2)
  | execOnly (st : AppState) (mech : Nat)
      (ip username password remote_script bundle_path : String)
      (w : WorkerOutcome) :
      Step st (executeCycle st mech ip username password remote_script bundle_path w)
  | listBundles (st : AppState) (ip username : String) (w : WorkerOutcome) :
      Step st (listCycle st ip username w)
  | download (st : AppState) (dlg : String) (w : WorkerOutcome) :
      Step st (downloadCycle st dlg w)
  | filterChange (st : AppState) (text : String) :
      Step st (_filter_bundle_paths st text)

/-- A session state reachable from startup through completed
operations. -/
def Reach (st : AppState) : Prop :=
  ∃ sshpass rsync, Relation.ReflTransGen Step (initialState sshpass rsync) st

/-- The session-state predicate of the claim: an available artifact
has a present, non-empty name, and a disconnected session has neither
artifact availability nor an artifact name. -/
def SessionInv (st : AppState) : Prop :=
  (st.ipa_available = true →
    ∃ n, st.last_generated_ipa_filename = some n ∧ n ≠ "") ∧
  (st.ssh_connected = false →
    st.ipa_available = false ∧ st.last_generated_ipa_filename = none)

lemma inv_cleared (st : AppState) (h1 : st.ipa_available = false)
    (h2 : st.last_generated_ipa_filename = none) : SessionInv st := by
  constructor
  · intro hh
    rw [h1] at hh
    cases hh
  · intro _
    exact ⟨h1, h2⟩

lemma inv_congr (st st' : AppState)
    (h1 : st'.ssh_connected = st.ssh_connected)
    (h2 : st'.ipa_available = st.ipa_available)
    (h3 : st'.last_generated_ipa_filename = st.last_generated_ipa_filename)
    (h : SessionInv st) : SessionInv st' := by
  unfold SessionInv
  rw [h1, h2, h3]
  exact h

lemma conn_true_of_guard {st : AppState} {p : Prop}
    (h : ¬(st.ssh_connected = false ∨ p)) : st.ssh_connected = true := by
  push_neg at h
  cases hb : st.ssh_connected
  · exact absurd hb h.1
  · rfl

lemma on_execute_finished_fst (st : AppState) (out err password : String) (rc : Int) :
    (on_execute_finished st out err rc password).1 =
      if rc = 0 then
        match extractIpaName out with
        | some name =>
            { st with ipa_available := true, last_generated_ipa_filename := some name }
        | none =>
            { st with ipa_available := false, last_generated_ipa_filename := none }
      else { st with ipa_available := false, last_generated_ipa_filename := none } := rfl

lemma inv_on_execute_finished (st : AppState) (out err password : String) (rc : Int)
    (hconn : st.ssh_connected = true) :
    SessionInv (on_execute_finished st out err rc password).1 := by
  rw [on_execute_finished_fst]
  by_cases h0 : rc = 0
  · rw [if_pos h0]
    cases hx : extractIpaName out with
    | some n =>
      refine ⟨fun _ => ⟨n, rfl, extractIpaName_ne_empty hx⟩, fun hf => ?_⟩
      have hf' : st.ssh_connected = false := hf
      rw [hconn] at hf'
      cases hf'
    | none => exact inv_cleared _ rfl rfl
  · rw [if_neg h0]
    exact inv_cleared _ rfl rfl

lemma on_bundle_paths_fetched_frame (st : AppState) (out err : String) (rc : Int) :
    (on_bundle_paths_fetched st out err rc).ssh_connected = st.ssh_connected ∧
    (on_bundle_paths_fetched st out err rc).ipa_available = st.ipa_available ∧
    (on_bundle_paths_fetched st out err rc).last_generated_ipa_filename =
      st.last_generated_ipa_filename := by
  unfold on_bundle_paths_fetched
  split <;> exact ⟨rfl, rfl, rfl⟩

lemma on_ipa_download_finished_frame (st : AppState) (out err : String)
    (rc : Int) (t : ℚ) :
    (on_ipa_download_finished st out err rc t).ssh_connected = st.ssh_connected ∧
    (on_ipa_download_finished st out err rc t).ipa_available = st.ipa_available ∧
    (on_ipa_download_finished st out err rc t).last_generated_ipa_filename =
      st.last_generated_ipa_filename := by
  unfold on_ipa_download_finished
  split <;> exact ⟨rfl, rfl, rfl⟩

lemma step_preserves_inv {st st' : AppState} (h : SessionInv st) (hs : Step st st') :
    SessionInv st' := by
  cases hs with
  | connect ip username w =>
    unfold connectCycle
    split
    · exact h
    · cases w with
      | done out err rc t =>
        unfold on_test_connection_finished
        dsimp only
        by_cases hc : rc = 0 ∧ containsSub "Connected" out = true
        · rw [if_pos hc]
          exact inv_cleared _ rfl rfl
        · rw [if_neg hc]
          exact inv_cleared _ rfl rfl
      | launchError msg => exact inv_cleared _ rfl rfl
  | disconnect => exact inv_cleared _ rfl rfl
  | transferRun mech ls ex ip u pw rs bp w1 w2 =>
    unfold transferCycle
    split
    · exact h
    · next hcond =>
      have hconn : st.ssh_connected = true := conn_true_of_guard hcond
      cases w1 with
      | launchError _ => exact inv_cleared _ rfl rfl
      | done o1 e1 rc1 t1 =>
        dsimp only
        by_cases hrc : rc1 = 0
        · rw [if_pos hrc]
          cases w2 with
          | done out err rc t => exact inv_on_execute_finished _ out err pw rc hconn
          | launchError _ => exact inv_cleared _ rfl rfl
        · rw [if_neg hrc]
          exact inv_cleared _ rfl rfl
  | execOnly mech ip u pw rs bp w =>
    unfold executeCycle
    split
    · exact h
    · next hcond =>
      have hconn : st.ssh_connected = true := conn_true_of_guard hcond
      cases w with
      | done out err rc t => exact inv_on_execute_finished _ out err pw rc hconn
      | launchError _ => exact inv_cleared _ rfl rfl
  | listBundles ip u w =>
    unfold listCycle
    split
    · exact h
    · next hcond =>
      cases w with
      | done out err rc t =>
        obtain ⟨f1, f2, f3⟩ :=
          on_bundle_paths_fetched_frame (operation_request_reset st) out err rc
        exact inv_cleared _ (by rw [f2]; rfl) (by rw [f3]; rfl)
      | launchError _ => exact inv_cleared _ rfl rfl
  | download dlg w =>
    unfold downloadCycle
    split
    · exact h
    · split
      · exact h
      · cases w with
        | done out err rc t =>
          obtain ⟨g1, g2, g3⟩ := on_ipa_download_finished_frame
            { st with download_progress_visible := true, download_progress_value := 0 }
            out err rc t
          exact inv_congr _ _ g1 g2 g3 h
        | launchError _ => exact inv_congr _ _ rfl rfl rfl h
  | filterChange text =>
    unfold _filter_bundle_paths
    split
    · exact inv_congr _ _ rfl rfl rfl h
    · exact inv_congr _ _ rfl rfl rfl h

/-- C4: the session-state predicate — an available artifact implies a
present, non-empty artifact name, and a disconnected session implies
no artifact availability and no artifact name — holds in every
quiescent state reachable through the operation handlers and their
completion callbacks. -/
theorem session_invariant_reachable : ∀ st : AppState, Reach st → SessionInv st := by
  intro st h
  obtain ⟨sp, rs, hr⟩ := h
  induction hr with
  | refl => exact inv_cleared _ rfl rfl
  | tail hsteps hstep ih => exact step_preserves_inv ih hstep

/-- C4 witness: the startup state is reachable and satisfies the
invariant. -/
theorem session_invariant_reachable_witness : SessionInv (initialState false false) :=
  session_invariant_reachable (initialState false false)
    ⟨false, false, Relation.ReflTransGen.refl⟩
